import Mathlib

/-!
Shallow embedding of the conversation-practice session tracker from
`app/services/conversation/conversation_service.py` (class `ConversationService`),
together with the response shapes from `conversation_schema.py`.

Modelling conventions:
* Python's in-memory dict `self.active_conversations` becomes an association
  list `ServiceState`; dict lookup/assignment/deletion become `lookupConv`,
  `insertConv`, `eraseConv`.
* `uuid.uuid4()` becomes an explicit `conversation_id : String` parameter.
  The `created_at` field (a uuid placeholder never read by the code) is dropped.
* `random.random() < 0.3` becomes an explicit `use_question : Bool` parameter,
  and `random.choice available` becomes indexing by `pick % available.length`
  for an explicit `pick : Nat` parameter; theorems quantify over both, so they
  hold for every outcome of the random draws.
* Python Unicode text is modelled at the `Char` level.  The `re` module's
  word and whitespace classes are modelled faithfully over the repertoire the
  service touches: `\w` over U+0000..U+02AF (Basic Latin, Latin-1 Supplement,
  Latin Extended-A/B and IPA extensions: every letter of those blocks, the
  digits, the superscript digits, the vulgar fractions, and the underscore)
  and `\s` as the full Unicode whitespace list; characters beyond U+02AF
  that are not whitespace are classified as non-word.  The case map
  `str.lower` is modelled faithfully over Basic Latin and the Latin-1
  Supplement — the only blocks in which uppercase letters occur anywhere in
  the service's phrase tables; capitals of later blocks are left unchanged,
  since Python's `str.lower` is not even length-preserving there (İ maps to
  a two-character string) and so admits no total `Char → Char` model.  No
  theorem below depends on that restriction: the normalization-rule claim
  compares two pipelines that apply the same case map to the same characters,
  and every concrete evaluation stays inside the faithful blocks.
-/

namespace ConversationTracker

/-- Models Python `str.isalpha` (Unicode letters) over the Basic Latin,
Latin-1 Supplement, Latin Extended-A/B and IPA-extension blocks: ASCII
letters, `ª`, `µ`, `º`, and U+00C0..U+02AF except the multiplication and
division signs `×` (U+00D7) and `÷` (U+00F7). -/
def pyIsAlpha (c : Char) : Bool :=
  (0x41 ≤ c.toNat && c.toNat ≤ 0x5A) ||
  (0x61 ≤ c.toNat && c.toNat ≤ 0x7A) ||
  c.toNat == 0xAA || c.toNat == 0xB5 || c.toNat == 0xBA ||
  (0xC0 ≤ c.toNat && c.toNat ≤ 0x2AF && c.toNat != 0xD7 && c.toNat != 0xF7)

/-- Models Python `str.isdigit` over the same repertoire: the ASCII digits
and the Latin-1 superscript digits `¹²³`. -/
def pyIsDigitChar (c : Char) : Bool :=
  (0x30 ≤ c.toNat && c.toNat ≤ 0x39) ||
  c.toNat == 0xB2 || c.toNat == 0xB3 || c.toNat == 0xB9

/-- Models Python `str.isnumeric` over the same repertoire: the digit
characters plus the Latin-1 vulgar fractions `¼½¾` (U+00BC..U+00BE), which
are numeric but not digits. -/
def pyIsNumericChar (c : Char) : Bool :=
  pyIsDigitChar c || (0xBC ≤ c.toNat && c.toNat ≤ 0xBE)

/-- Models Python `str.isalnum`: `isalpha` or `isdecimal` or `isdigit` or
`isnumeric`; over this repertoire `isnumeric` contains the other two numeric
classes, so this is alphabetic-or-numeric. -/
def pyIsAlnum (c : Char) : Bool :=
  pyIsAlpha c || pyIsNumericChar c

/-- Models the `\w` class of Python's `re` module on `str`:
Unicode alphanumerics plus the underscore. -/
def pyIsWordChar (c : Char) : Bool :=
  pyIsAlnum c || c == '_'

/-- Models the `\s` class of Python's `re` module on `str` (also used for
`str.strip()`): the Unicode whitespace characters. -/
def pyIsSpace (c : Char) : Bool :=
  (0x09 ≤ c.toNat && c.toNat ≤ 0x0D) ||
  (0x1C ≤ c.toNat && c.toNat ≤ 0x1F) ||
  c.toNat == 0x20 || c.toNat == 0x85 || c.toNat == 0xA0 ||
  c.toNat == 0x1680 ||
  (0x2000 ≤ c.toNat && c.toNat ≤ 0x200A) ||
  c.toNat == 0x2028 || c.toNat == 0x2029 ||
  c.toNat == 0x202F || c.toNat == 0x205F || c.toNat == 0x3000

/-- Models Python `str.lower` on one character over Basic Latin and the
Latin-1 Supplement: ASCII capitals and the Latin-1 capitals U+00C0..U+00DE
(except `×`) shift by 0x20.  Capitals of later blocks are left unchanged:
none occurs in the service's phrase tables, and Python's `str.lower` is not
representable as a `Char` map there (İ lowercases to two characters). -/
def pyToLower (c : Char) : Char :=
  if 0x41 ≤ c.toNat && c.toNat ≤ 0x5A then Char.ofNat (c.toNat + 0x20)
  else if 0xC0 ≤ c.toNat && c.toNat ≤ 0xDE && c.toNat != 0xD7 then Char.ofNat (c.toNat + 0x20)
  else c

/-- Models Python `str.strip()` (no arguments): drop whitespace from both
ends. -/
def pyStrip (s : List Char) : List Char :=
  ((s.dropWhile pyIsSpace).reverse.dropWhile pyIsSpace).reverse

/-- `ConversationService._normalize_text`:
`re.sub(r'[^\w\s]', '', text).lower().strip()` — delete every character that
is neither a word character nor whitespace, lower-case, then strip. -/
def normalize_text (text : String) : String :=
  String.mk (pyStrip (((text.data.filter fun c => pyIsWordChar c || pyIsSpace c).map pyToLower)))

/-- `ConversationService.MAX_QUESTIONS`. -/
def MAX_QUESTIONS : Nat := 5

/-- `ConversationService.GREETING_PHRASES`. -/
def GREETING_PHRASES : List (String × String) :=
  [("en-US", "How are you?"),
   ("tl-PH", "Kumusta ka?"),
   ("es-ES", "¿Cómo estás?"),
   ("fr-FR", "Comment ça va?"),
   ("de-DE", "Wie geht es dir?"),
   ("ja-JP", "Ogenki desu ka?"),
   ("zh-CN", "Nǐ hǎo ma?"),
   ("ko-KR", "Annyeonghaseyo?")]

/-- `ConversationService.FALLBACK_QUESTIONS`. -/
def FALLBACK_QUESTIONS : List (String × List String) :=
  [("en-US",
    ["What do you eat for breakfast?",
     "How do you go to work?",
     "What do you do on weekends?",
     "Do you like cooking?",
     "What is your favorite season?",
     "Do you exercise every day?",
     "What music do you like?",
     "Do you have any pets?",
     "What time do you wake up?",
     "What is your favorite food?",
     "Do you like reading books?",
     "What do you do for fun?",
     "Do you like outdoor activities?"]),
   ("tl-PH",
    ["Ano ang kinakain mo sa almusal?",
     "Paano ka pumupunta sa trabaho?",
     "Ano ang ginagawa mo sa weekends?",
     "Gusto mo bang magluto?",
     "Ano ang paborito mong season?",
     "Nag-eehersisyo ka ba araw-araw?",
     "Anong musika ang gusto mo?",
     "May alagang hayop ka ba?",
     "Anong oras ka gumigising?",
     "Ano ang paborito mong pagkain?",
     "Gusto mo bang magbasa?",
     "Ano ang ginagawa mo para magsaya?",
     "Gusto mo ba ng outdoor activities?"]),
   ("es-ES",
    ["¿Qué comes para el desayuno?",
     "¿Cómo vas al trabajo?",
     "¿Qué haces los fines de semana?",
     "¿Te gusta cocinar?",
     "¿Cuál es tu estación favorita?",
     "¿Haces ejercicio todos los días?",
     "¿Qué música te gusta?",
     "¿Tienes mascotas?",
     "¿A qué hora te despiertas?",
     "¿Cuál es tu comida favorita?",
     "¿Te gusta leer libros?",
     "¿Qué haces para divertirte?",
     "¿Te gustan las actividades al aire libre?"])]

/-- `ConversationService.GENERAL_STATEMENTS`. -/
def GENERAL_STATEMENTS : List (String × List String) :=
  [("en-US",
    ["The weather is nice today.",
     "I love coffee in the morning.",
     "Traffic was terrible this morning.",
     "I\x27m feeling a bit tired today.",
     "This restaurant has great food.",
     "I need to buy groceries later.",
     "The movie was really interesting.",
     "I\x27m learning something new every day.",
     "My family is doing well.",
     "I enjoy walking in the park.",
     "Work has been busy lately.",
     "I slept really well last night.",
     "The sunset was beautiful yesterday."]),
   ("tl-PH",
    ["Maganda ang panahon ngayon.",
     "Mahilig ako sa kape sa umaga.",
     "Grabe ang trapik kanina.",
     "Medyo pagod ako ngayon.",
     "Masarap ang pagkain dito.",
     "Kailangan kong bumili ng groceries mamaya.",
     "Ang ganda ng palabas na yun.",
     "Natututo ako ng bago araw-araw.",
     "Mabuti naman ang pamilya ko.",
     "Gusto kong maglakad sa park.",
     "Abala ang trabaho kamakailan.",
     "Napakahimbing ng tulog ko kagabi.",
     "Ang ganda ng sunset kahapon."]),
   ("es-ES",
    ["Hace buen tiempo hoy.",
     "Me encanta el café por la mañana.",
     "El tráfico estuvo terrible esta mañana.",
     "Me siento un poco cansado hoy.",
     "Este restaurante tiene comida excelente.",
     "Necesito comprar comestibles más tarde.",
     "La película fue muy interesante.",
     "Estoy aprendiendo algo nuevo cada día.",
     "Mi familia está bien.",
     "Disfruto caminar en el parque.",
     "El trabajo ha estado ocupado últimamente.",
     "Dormí muy bien anoche.",
     "La puesta de sol fue hermosa ayer."])]

/-- Python `dict.get(key)` on a table modelled as an association list. -/
def tblGet (tbl : List (String × α)) (k : String) : Option α :=
  match tbl with
  | [] => none
  | (k', v) :: rest => if k' = k then some v else tblGet rest k

/-- `ConversationService._get_fallback_questions`:
`FALLBACK_QUESTIONS.get(language, FALLBACK_QUESTIONS["en-US"])`.
(Indexing a table with `"en-US"` can never fail in the source; the `.getD []`
default is dead.) -/
def get_fallback_questions (language : String) : List String :=
  (tblGet FALLBACK_QUESTIONS language).getD ((tblGet FALLBACK_QUESTIONS "en-US").getD [])

/-- `ConversationService._get_general_statements`:
`GENERAL_STATEMENTS.get(language, GENERAL_STATEMENTS["en-US"])`. -/
def get_general_statements (language : String) : List String :=
  (tblGet GENERAL_STATEMENTS language).getD ((tblGet GENERAL_STATEMENTS "en-US").getD [])

/-- `GREETING_PHRASES.get(language, GREETING_PHRASES["en-US"])` from
`start_conversation`. -/
def getGreeting (language : String) : String :=
  (tblGet GREETING_PHRASES language).getD ((tblGet GREETING_PHRASES "en-US").getD "")

/-- The per-session record stored in `self.active_conversations`
(`created_at`, a uuid placeholder the code never reads, is omitted). -/
structure ConvData where
  language : String
  current_phrase : String
  question_count : Nat
  asked_questions : List String
deriving DecidableEq, Repr

/-- `self.active_conversations`, a dict from conversation id to session data,
modelled as an association list. -/
abbrev ServiceState := List (String × ConvData)

/-- Dict membership / lookup: `self.active_conversations[conversation_id]`. -/
def lookupConv (st : ServiceState) (k : String) : Option ConvData :=
  tblGet st k

/-- Dict assignment `self.active_conversations[k] = v`: replace the entry if
the key is present, else append it. -/
def insertConv (st : ServiceState) (k : String) (v : ConvData) : ServiceState :=
  match st with
  | [] => [(k, v)]
  | (k', v') :: rest =>
    if k' = k then (k, v) :: rest else (k', v') :: insertConv rest k v

/-- Dict deletion `del self.active_conversations[k]`. -/
def eraseConv (st : ServiceState) (k : String) : ServiceState :=
  match st with
  | [] => []
  | (k', v') :: rest =>
    if k' = k then rest else (k', v') :: eraseConv rest k

/-- `ConversationStartResponse` from `conversation_schema.py`. -/
structure ConversationStartResponse where
  conversation_id : String
  ai_message : String
deriving DecidableEq, Repr

/-- `ConversationReplyResponse` from `conversation_schema.py`. -/
structure ConversationReplyResponse where
  ai_message : String
  conversation_ended : Bool
deriving DecidableEq, Repr

/-- `ConversationService.start_conversation`: clear every active
conversation, mint a session seeded with the language's greeting (en-US
fallback), and return the greeting verbatim.  `conversation_id` stands for
the fresh `uuid.uuid4()`. -/
def start_conversation (st : ServiceState) (language : String)
    (conversation_id : String) : ServiceState × ConversationStartResponse :=
  -- self.active_conversations.clear()
  let cleared : ServiceState := []
  let target_phrase := getGreeting language
  let normalized_phrase := normalize_text target_phrase
  let greeting_message := target_phrase
  let st' := insertConv cleared conversation_id
    { language := language
      current_phrase := target_phrase
      question_count := 0
      asked_questions := [normalized_phrase] }
  (st', { conversation_id := conversation_id, ai_message := greeting_message })

/-- The "not found" terminal message of `reply_to_conversation`. -/
def notFoundMessage : String :=
  "Conversation not found. Please start a new conversation."

/-- The completion message of `reply_to_conversation`
(`f"You've completed all {self.MAX_QUESTIONS} prompts. Fantastic work!"`). -/
def completionMessage : String :=
  "You\x27ve completed all " ++ toString MAX_QUESTIONS ++ " prompts. Fantastic work!"

/-- The pool selection of `reply_to_conversation` (lines 229-234 of the
source): the question pool when the `random.random() < 0.3` draw succeeded,
the statement pool otherwise. -/
def chosenPool (use_question : Bool) (language : String) : List String :=
  if use_question then get_fallback_questions language
  else get_general_statements language

/-- `ConversationService.reply_to_conversation`.  `use_question` stands for
the draw `random.random() < 0.3` and `pick` drives `random.choice` (which
picks the element at `pick % available.length`); quantifying over them covers
every outcome of the random draws. -/
def reply_to_conversation (st : ServiceState) (conversation_id : String)
    (user_message : String) (language : String) (use_question : Bool)
    (pick : Nat) : ServiceState × ConversationReplyResponse :=
  match lookupConv st conversation_id with
  | none =>
    (st, { ai_message := notFoundMessage, conversation_ended := true })
  | some conv_data =>
    let current_phrase := conv_data.current_phrase
    let normalized_user_message := normalize_text user_message
    let normalized_current_phrase := normalize_text current_phrase
    if normalized_user_message ≠ normalized_current_phrase then
      (st, { ai_message := "Please say " ++ current_phrase ++ " again."
             conversation_ended := false })
    else
      -- conv_data["question_count"] += 1
      let question_count := conv_data.question_count + 1
      if question_count ≥ MAX_QUESTIONS then
        (eraseConv st conversation_id,
         { ai_message := completionMessage, conversation_ended := true })
      else
        let language_phrases := chosenPool use_question language
        let asked_questions := conv_data.asked_questions
        let available0 := language_phrases.filter
          fun phrase => !(decide (normalize_text phrase ∈ asked_questions))
        let available := if available0.isEmpty then language_phrases else available0
        let next_phrase := available.getD (pick % available.length) ""
        let conv' : ConvData :=
          { conv_data with
            question_count := question_count
            asked_questions := asked_questions ++ [normalize_text next_phrase]
            current_phrase := next_phrase }
        (insertConv st conversation_id conv',
         { ai_message := next_phrase, conversation_ended := false })

/-- The character class of the spec's normalization rule, stated in the
spec's words: keep a character exactly when it is a letter, a digit, or
whitespace. -/
def specKeepsChar (c : Char) : Bool :=
  pyIsAlpha c || pyIsDigitChar c || pyIsSpace c

/-- The spec's normalization rule, stated in the spec's words: strip every
character that is not a letter, digit, or whitespace, lower-case the result,
then trim leading and trailing whitespace.  Written only to be compared with
`normalize_text`, the function the code actually implements. -/
def normalize_text_spec (text : String) : String :=
  String.mk (pyStrip ((text.data.filter specKeepsChar).map pyToLower))

/-- The spec's normalization rule amended minimally to match the code: the
kept class additionally contains the non-digit numeric characters (the
vulgar fractions `¼½¾`) and the underscore, both of which Python's `\w` word
class keeps although they are neither letters, digits, nor whitespace. -/
def normalize_text_spec_amended (text : String) : String :=
  String.mk (pyStrip ((text.data.filter
    fun c => specKeepsChar c || pyIsNumericChar c || c == '_').map pyToLower))

/-- One externally triggerable operation of the service. -/
inductive Op where
  | startOp (language conversation_id : String)
  | replyOp (conversation_id user_message language : String)
      (use_question : Bool) (pick : Nat)
deriving DecidableEq, Repr

/-- Whether an operation is a `reply` call. -/
def Op.isReplyOp : Op → Bool
  | .replyOp _ _ _ _ _ => true
  | _ => false

/-- The state transition of one operation (responses discarded). -/
def stepOp (st : ServiceState) : Op → ServiceState
  | .startOp language conversation_id =>
    (start_conversation st language conversation_id).1
  | .replyOp conversation_id user_message language use_question pick =>
    (reply_to_conversation st conversation_id user_message language
      use_question pick).1

/-- Run a sequence of operations from a state. -/
def runOps (st : ServiceState) (ops : List Op) : ServiceState :=
  ops.foldl stepOp st

/-- Test driver: one `reply` call that submits the session's own
`current_phrase` as the user text (a correct reply).  `p` packs the language
and the two random draws of that call. -/
def replyCurrent (st : ServiceState) (conversation_id : String)
    (p : String × Bool × Nat) : ServiceState × ConversationReplyResponse :=
  reply_to_conversation st conversation_id
    (((lookupConv st conversation_id).map ConvData.current_phrase).getD "")
    p.1 p.2.1 p.2.2

/-- Test driver: a chain of correct replies, returning the final state and
the response of the last call. -/
def runCorrect (st : ServiceState) (conversation_id : String) :
    List (String × Bool × Nat) → ServiceState × ConversationReplyResponse
  | [] => (st, { ai_message := "", conversation_ended := false })
  | [p] => replyCurrent st conversation_id p
  | p :: p' :: ps =>
    runCorrect (replyCurrent st conversation_id p).1 conversation_id (p' :: ps)

/-- The candidate set the advancing branch of `reply_to_conversation` draws
from: the chosen pool filtered to phrases not yet asked, falling back to the
full pool when that filter is empty. -/
def availablePhrases (cd : ConvData) (use_question : Bool) (language : String) :
    List String :=
  let pool := chosenPool use_question language
  let unseen := pool.filter fun phrase => !(decide (normalize_text phrase ∈ cd.asked_questions))
  if unseen.isEmpty then pool else unseen

/-- The phrase the advancing branch of `reply_to_conversation` picks for the
draw `pick`. -/
def nextPhrase (cd : ConvData) (use_question : Bool) (language : String)
    (pick : Nat) : String :=
  (availablePhrases cd use_question language).getD
    (pick % (availablePhrases cd use_question language).length) ""

/-- The session record after the advancing branch of
`reply_to_conversation`. -/
def advanceData (cd : ConvData) (use_question : Bool) (language : String)
    (pick : Nat) : ConvData :=
  { cd with
    question_count := cd.question_count + 1
    asked_questions := cd.asked_questions ++ [normalize_text (nextPhrase cd use_question language pick)]
    current_phrase := nextPhrase cd use_question language pick }

section Lemmas

variable {α : Type}

theorem tblGet_eq_none_of_not_mem {tbl : List (String × α)} {k : String}
    (h : k ∉ tbl.map Prod.fst) : tblGet tbl k = none := by
  induction tbl with
  | nil => rfl
  | cons hd tl ih =>
    obtain ⟨k', v⟩ := hd
    simp only [List.map_cons, List.mem_cons, not_or] at h
    have hk : ¬ k' = k := fun hk => h.1 hk.symm
    simp only [tblGet, if_neg hk]
    exact ih h.2

theorem mem_of_tblGet_eq_some {tbl : List (String × α)} {k : String} {v : α}
    (h : tblGet tbl k = some v) : (k, v) ∈ tbl := by
  induction tbl with
  | nil => simp [tblGet] at h
  | cons hd tl ih =>
    obtain ⟨k', v'⟩ := hd
    simp only [tblGet] at h
    split at h
    · rename_i hk
      injection h with h
      subst h
      rw [← hk]
      exact List.mem_cons_self _ _
    · exact List.mem_cons_of_mem _ (ih h)

theorem lookupConv_insertConv (st : ServiceState) (k : String) (v : ConvData)
    (j : String) :
    lookupConv (insertConv st k v) j
      = if k = j then some v else lookupConv st j := by
  induction st with
  | nil => simp [lookupConv, insertConv, tblGet]
  | cons hd tl ih =>
    obtain ⟨k', v'⟩ := hd
    simp only [insertConv]
    by_cases hk : k' = k
    · subst hk
      by_cases hj : k' = j <;> simp [lookupConv, tblGet, hj]
    · simp only [if_neg hk]
      by_cases hj : k' = j
      · subst hj
        have hkj : ¬ k = k' := fun h => hk h.symm
        simp [lookupConv, tblGet, hkj]
      · simp only [lookupConv, tblGet, if_neg hj]
        simpa [lookupConv] using ih

theorem mem_of_mem_eraseConv {st : ServiceState} {k : String}
    {p : String × ConvData} (h : p ∈ eraseConv st k) : p ∈ st := by
  induction st with
  | nil => simpa [eraseConv] using h
  | cons hd tl ih =>
    obtain ⟨k', v'⟩ := hd
    by_cases hk : k' = k
    · simp only [eraseConv, if_pos hk] at h
      exact List.mem_cons_of_mem _ h
    · simp only [eraseConv, if_neg hk, List.mem_cons] at h
      rcases h with h | h
      · exact h ▸ List.mem_cons_self _ _
      · exact List.mem_cons_of_mem _ (ih h)

theorem mem_of_mem_insertConv {st : ServiceState} {k : String} {v : ConvData}
    {p : String × ConvData} (h : p ∈ insertConv st k v) :
    p = (k, v) ∨ p ∈ st := by
  induction st with
  | nil => simpa [insertConv] using h
  | cons hd tl ih =>
    obtain ⟨k', v'⟩ := hd
    by_cases hk : k' = k
    · simp only [insertConv, if_pos hk, List.mem_cons] at h
      rcases h with h | h
      · exact Or.inl h
      · exact Or.inr (List.mem_cons_of_mem _ h)
    · simp only [insertConv, if_neg hk, List.mem_cons] at h
      rcases h with h | h
      · exact Or.inr (h ▸ List.mem_cons_self _ _)
      · rcases ih h with h' | h'
        · exact Or.inl h'
        · exact Or.inr (List.mem_cons_of_mem _ h')

theorem lookupConv_eraseConv_ne {st : ServiceState} {k j : String}
    (h : k ≠ j) : lookupConv (eraseConv st k) j = lookupConv st j := by
  induction st with
  | nil => rfl
  | cons hd tl ih =>
    obtain ⟨k', v'⟩ := hd
    by_cases hk : k' = k
    · subst hk
      have hkj : ¬ k' = j := h
      simp [lookupConv, eraseConv, tblGet, hkj]
    · by_cases hj : k' = j
      · subst hj
        simp [lookupConv, eraseConv, tblGet, hk]
      · simp only [eraseConv, if_neg hk, lookupConv, tblGet, if_neg hj]
        simpa [lookupConv] using ih

theorem lookupConv_eraseConv_self {st : ServiceState} {k : String}
    (h : (st.map Prod.fst).Nodup) : lookupConv (eraseConv st k) k = none := by
  induction st with
  | nil => rfl
  | cons hd tl ih =>
    obtain ⟨k', v'⟩ := hd
    simp only [List.map_cons, List.nodup_cons] at h
    by_cases hk : k' = k
    · subst hk
      simp only [eraseConv, if_pos rfl]
      exact tblGet_eq_none_of_not_mem h.1
    · simp only [eraseConv, if_neg hk, lookupConv, tblGet, if_neg hk]
      exact ih h.2

theorem length_insertConv_of_lookup {st : ServiceState} {k : String}
    {v0 : ConvData} (v : ConvData) (h : lookupConv st k = some v0) :
    (insertConv st k v).length = st.length := by
  induction st with
  | nil => simp [lookupConv, tblGet] at h
  | cons hd tl ih =>
    obtain ⟨k', v'⟩ := hd
    by_cases hk : k' = k
    · simp [insertConv, hk]
    · simp only [lookupConv, tblGet, if_neg hk] at h
      simp [insertConv, if_neg hk, ih h]

theorem length_eraseConv_le (st : ServiceState) (k : String) :
    (eraseConv st k).length ≤ st.length := by
  induction st with
  | nil => simp [eraseConv]
  | cons hd tl ih =>
    obtain ⟨k', v'⟩ := hd
    by_cases hk : k' = k
    · simp only [eraseConv, if_pos hk, List.length_cons]
      omega
    · simp only [eraseConv, if_neg hk, List.length_cons]
      omega

theorem reply_not_found {st : ServiceState} {cid : String} (u lang : String)
    (q : Bool) (k : Nat) (h : lookupConv st cid = none) :
    reply_to_conversation st cid u lang q k
      = (st, { ai_message := notFoundMessage, conversation_ended := true }) := by
  simp [reply_to_conversation, h]

theorem reply_mismatch {st : ServiceState} {cid : String} {cd : ConvData}
    (u lang : String) (q : Bool) (k : Nat) (h : lookupConv st cid = some cd)
    (hm : normalize_text u ≠ normalize_text cd.current_phrase) :
    reply_to_conversation st cid u lang q k
      = (st, { ai_message := "Please say " ++ cd.current_phrase ++ " again."
               conversation_ended := false }) := by
  simp [reply_to_conversation, h, hm]

theorem reply_match_final {st : ServiceState} {cid : String} {cd : ConvData}
    (u lang : String) (q : Bool) (k : Nat) (h : lookupConv st cid = some cd)
    (hm : normalize_text u = normalize_text cd.current_phrase)
    (hc : cd.question_count + 1 ≥ MAX_QUESTIONS) :
    reply_to_conversation st cid u lang q k
      = (eraseConv st cid,
         { ai_message := completionMessage, conversation_ended := true }) := by
  simp [reply_to_conversation, h, hm, ge_iff_le, hc]

theorem reply_match_next {st : ServiceState} {cid : String} {cd : ConvData}
    (u lang : String) (q : Bool) (k : Nat) (h : lookupConv st cid = some cd)
    (hm : normalize_text u = normalize_text cd.current_phrase)
    (hc : cd.question_count + 1 < MAX_QUESTIONS) :
    reply_to_conversation st cid u lang q k
      = (insertConv st cid (advanceData cd q lang k),
         { ai_message := nextPhrase cd q lang k, conversation_ended := false }) := by
  have hge : ¬ (MAX_QUESTIONS ≤ cd.question_count + 1) := by omega
  simp [reply_to_conversation, h, hm, ge_iff_le, hge, advanceData, nextPhrase,
    availablePhrases]

theorem replyCurrent_match_next {st : ServiceState} {cid : String}
    {cd : ConvData} (p : String × Bool × Nat)
    (h : lookupConv st cid = some cd)
    (hc : cd.question_count + 1 < MAX_QUESTIONS) :
    replyCurrent st cid p
      = (insertConv st cid (advanceData cd p.2.1 p.1 p.2.2),
         { ai_message := nextPhrase cd p.2.1 p.1 p.2.2
           conversation_ended := false }) := by
  unfold replyCurrent
  rw [h]
  exact reply_match_next _ _ _ _ h rfl hc

theorem replyCurrent_match_final {st : ServiceState} {cid : String}
    {cd : ConvData} (p : String × Bool × Nat)
    (h : lookupConv st cid = some cd)
    (hc : cd.question_count + 1 ≥ MAX_QUESTIONS) :
    replyCurrent st cid p
      = (eraseConv st cid,
         { ai_message := completionMessage, conversation_ended := true }) := by
  unfold replyCurrent
  rw [h]
  exact reply_match_final _ _ _ _ h rfl hc

theorem reply_preserves_absent {st : ServiceState} {j : String}
    (cid u lang : String) (q : Bool) (k : Nat)
    (h : lookupConv st j = none) :
    lookupConv (reply_to_conversation st cid u lang q k).1 j = none := by
  cases hl : lookupConv st cid with
  | none =>
    rw [reply_not_found u lang q k hl]
    exact h
  | some cd =>
    have hne : cid ≠ j := by
      rintro rfl
      rw [hl] at h
      cases h
    by_cases hm : normalize_text u = normalize_text cd.current_phrase
    · by_cases hc : cd.question_count + 1 ≥ MAX_QUESTIONS
      · rw [reply_match_final u lang q k hl hm hc]
        rw [lookupConv_eraseConv_ne hne]
        exact h
      · rw [reply_match_next u lang q k hl hm (by omega)]
        rw [lookupConv_insertConv, if_neg hne]
        exact h
    · rw [reply_mismatch u lang q k hl hm]
      exact h

theorem length_reply_le (st : ServiceState) (cid u lang : String) (q : Bool)
    (k : Nat) :
    (reply_to_conversation st cid u lang q k).1.length ≤ st.length := by
  cases hl : lookupConv st cid with
  | none =>
    rw [reply_not_found u lang q k hl]
  | some cd =>
    by_cases hm : normalize_text u = normalize_text cd.current_phrase
    · by_cases hc : cd.question_count + 1 ≥ MAX_QUESTIONS
      · rw [reply_match_final u lang q k hl hm hc]
        exact length_eraseConv_le st cid
      · rw [reply_match_next u lang q k hl hm (by omega)]
        exact le_of_eq (length_insertConv_of_lookup _ hl)
    · rw [reply_mismatch u lang q k hl hm]

theorem reply_count_mono {st : ServiceState}
    (hwf : (st.map Prod.fst).Nodup) (cid u lang : String) (q : Bool) (k : Nat)
    {j : String} {cd cd' : ConvData}
    (h1 : lookupConv st j = some cd)
    (h2 : lookupConv (reply_to_conversation st cid u lang q k).1 j = some cd') :
    cd.question_count ≤ cd'.question_count := by
  cases hl : lookupConv st cid with
  | none =>
    rw [reply_not_found u lang q k hl, h1] at h2
    cases h2
    exact le_refl _
  | some cde =>
    by_cases hm : normalize_text u = normalize_text cde.current_phrase
    · by_cases hc : cde.question_count + 1 ≥ MAX_QUESTIONS
      · rw [reply_match_final u lang q k hl hm hc] at h2
        by_cases hj : cid = j
        · subst hj
          rw [lookupConv_eraseConv_self hwf] at h2
          cases h2
        · rw [lookupConv_eraseConv_ne hj, h1] at h2
          cases h2
          exact le_refl _
      · rw [reply_match_next u lang q k hl hm (by omega)] at h2
        rw [lookupConv_insertConv] at h2
        by_cases hj : cid = j
        · subst hj
          rw [if_pos rfl] at h2
          rw [hl] at h1
          cases h1
          cases h2
          simp [advanceData]
        · rw [if_neg hj, h1] at h2
          cases h2
          exact le_refl _
    · rw [reply_mismatch u lang q k hl hm, h1] at h2
      cases h2
      exact le_refl _

theorem counts_le_stepOp {st : ServiceState}
    (hst : ∀ p ∈ st, (Prod.snd p).question_count ≤ MAX_QUESTIONS) (op : Op) :
    ∀ p ∈ stepOp st op, (Prod.snd p).question_count ≤ MAX_QUESTIONS := by
  intro p hp
  cases op with
  | startOp lang cid =>
    simp only [stepOp, start_conversation, insertConv] at hp
    simp only [List.mem_singleton] at hp
    subst hp
    simp [MAX_QUESTIONS]
  | replyOp cid u lang q k =>
    simp only [stepOp] at hp
    cases hl : lookupConv st cid with
    | none =>
      rw [reply_not_found u lang q k hl] at hp
      exact hst p hp
    | some cd =>
      by_cases hm : normalize_text u = normalize_text cd.current_phrase
      · by_cases hc : cd.question_count + 1 ≥ MAX_QUESTIONS
        · rw [reply_match_final u lang q k hl hm hc] at hp
          exact hst p (mem_of_mem_eraseConv hp)
        · have hc' : cd.question_count + 1 < MAX_QUESTIONS := by omega
          rw [reply_match_next u lang q k hl hm hc'] at hp
          rcases mem_of_mem_insertConv hp with h | h
          · subst h
            simp only [advanceData]
            omega
          · exact hst p h
      · rw [reply_mismatch u lang q k hl hm] at hp
        exact hst p hp

theorem length_stepOp_le_one {st : ServiceState} (h : st.length ≤ 1)
    (op : Op) : (stepOp st op).length ≤ 1 := by
  cases op with
  | startOp lang cid =>
    simp [stepOp, start_conversation, insertConv]
  | replyOp cid u lang q k =>
    exact le_trans (length_reply_le st cid u lang q k) h

theorem length_runOps_le_one {st : ServiceState} (h : st.length ≤ 1)
    (ops : List Op) : (runOps st ops).length ≤ 1 := by
  induction ops generalizing st with
  | nil => exact h
  | cons op ops ih =>
    exact ih (length_stepOp_le_one h op)

theorem nodup_keys_of_length_le_one {st : ServiceState} (h : st.length ≤ 1) :
    (st.map Prod.fst).Nodup := by
  match st, h with
  | [], _ => simp
  | [p], _ => simp

end Lemmas

/-- Claim C1: for every active session, a reply whose text normalizes to the
normalized form of the session's current expected phrase increments the
stored `question_count` by exactly 1: afterwards the session either stores
the old count plus 1, or has been destroyed, the latter exactly when the
incremented count reached `MAX_QUESTIONS`. -/
theorem claim_C1 (st : ServiceState) (cid u lang : String) (q : Bool) (k : Nat)
    (cd : ConvData) (hwf : (st.map Prod.fst).Nodup)
    (hl : lookupConv st cid = some cd)
    (hm : normalize_text u = normalize_text cd.current_phrase) :
    (lookupConv (reply_to_conversation st cid u lang q k).1 cid = none
        ↔ cd.question_count + 1 ≥ MAX_QUESTIONS)
    ∧ ∀ cd', lookupConv (reply_to_conversation st cid u lang q k).1 cid = some cd'
        → cd'.question_count = cd.question_count + 1 := by
  by_cases hc : cd.question_count + 1 ≥ MAX_QUESTIONS
  · rw [reply_match_final u lang q k hl hm hc]
    rw [lookupConv_eraseConv_self hwf]
    exact ⟨⟨fun _ => hc, fun _ => rfl⟩, fun cd' h2 => by cases h2⟩
  · rw [reply_match_next u lang q k hl hm (by omega)]
    rw [lookupConv_insertConv, if_pos rfl]
    constructor
    · constructor
      · intro h2
        cases h2
      · intro h2
        exact absurd h2 hc
    · intro cd' h2
      cases h2
      rfl

/-- Witness for C1 at a concrete session: replying "how are you!" to the
expected phrase "How are you?" increments the count from 0 to 1. -/
theorem claim_C1_witness :
    ((([("a", ConvData.mk "en-US" "How are you?" 0 ["how are you"])]
        : ServiceState).map Prod.fst).Nodup
    ∧ lookupConv [("a", ConvData.mk "en-US" "How are you?" 0 ["how are you"])] "a"
        = some (ConvData.mk "en-US" "How are you?" 0 ["how are you"])
    ∧ normalize_text "how are you!"
        = normalize_text (ConvData.mk "en-US" "How are you?" 0 ["how are you"]).current_phrase)
    ∧ ((lookupConv (reply_to_conversation
          [("a", ConvData.mk "en-US" "How are you?" 0 ["how are you"])]
          "a" "how are you!" "en-US" true 0).1 "a" = none
        ↔ (ConvData.mk "en-US" "How are you?" 0 ["how are you"]).question_count + 1
            ≥ MAX_QUESTIONS)
      ∧ ∀ cd', lookupConv (reply_to_conversation
          [("a", ConvData.mk "en-US" "How are you?" 0 ["how are you"])]
          "a" "how are you!" "en-US" true 0).1 "a" = some cd'
        → cd'.question_count
            = (ConvData.mk "en-US" "How are you?" 0 ["how are you"]).question_count + 1) :=
  ⟨⟨by decide, by decide, by decide⟩,
   claim_C1 _ "a" "how are you!" "en-US" true 0 _ (by decide) (by decide) (by decide)⟩

/-- Claim C2: for an active session, a reply whose text does not normalize to
the expected phrase leaves the whole service state unchanged and returns the
retry message built from the original, non-normalized expected phrase, with
`conversation_ended = false`. -/
theorem claim_C2 (st : ServiceState) (cid u lang : String) (q : Bool) (k : Nat)
    (cd : ConvData) (hl : lookupConv st cid = some cd)
    (hm : normalize_text u ≠ normalize_text cd.current_phrase) :
    reply_to_conversation st cid u lang q k
      = (st, { ai_message := "Please say " ++ cd.current_phrase ++ " again."
               conversation_ended := false }) :=
  reply_mismatch u lang q k hl hm

/-- Witness for C2 at a concrete session: replying "wrong" to the expected
phrase "How are you?" changes nothing and echoes the phrase verbatim. -/
theorem claim_C2_witness :
    (lookupConv [("a", ConvData.mk "en-US" "How are you?" 1 ["how are you"])] "a"
        = some (ConvData.mk "en-US" "How are you?" 1 ["how are you"])
    ∧ normalize_text "wrong"
        ≠ normalize_text (ConvData.mk "en-US" "How are you?" 1 ["how are you"]).current_phrase)
    ∧ reply_to_conversation
        [("a", ConvData.mk "en-US" "How are you?" 1 ["how are you"])]
        "a" "wrong" "en-US" false 3
      = ([("a", ConvData.mk "en-US" "How are you?" 1 ["how are you"])],
         { ai_message := "Please say "
             ++ (ConvData.mk "en-US" "How are you?" 1 ["how are you"]).current_phrase
             ++ " again."
           conversation_ended := false }) :=
  ⟨⟨by decide, by decide⟩,
   claim_C2 _ "a" "wrong" "en-US" false 3
     (ConvData.mk "en-US" "How are you?" 1 ["how are you"]) (by decide) (by decide)⟩

/-- Claim C4 counterexample: the code's normalization keeps the underscore
and the vulgar fraction `¼` (Python's `\w` word class contains both), while
the spec's stated rule — keep only letters, digits and whitespace — strips
them.  At the concrete input "snake_case ¼" the two disagree. -/
theorem claim_C4_counterexample :
    normalize_text "snake_case ¼" = "snake_case ¼"
    ∧ normalize_text_spec "snake_case ¼" = "snakecase"
    ∧ normalize_text "snake_case ¼" ≠ normalize_text_spec "snake_case ¼" :=
  ⟨by decide, by decide, by decide⟩

/-- Claim C4 as amended: normalization strips every character that is not a
letter, a numeric character (digit, superscript digit, or vulgar fraction),
an underscore, or whitespace, lower-cases the result, then trims leading and
trailing whitespace. -/
theorem claim_C4 (s : String) : normalize_text s = normalize_text_spec_amended s := by
  have hch : ∀ c : Char,
      (pyIsWordChar c || pyIsSpace c)
        = (specKeepsChar c || pyIsNumericChar c || c == '_') := by
    intro c
    cases hA : pyIsAlpha c <;> cases hD : pyIsDigitChar c <;>
      cases hF : (0xBC ≤ c.toNat && c.toNat ≤ 0xBE) <;>
      cases hS : pyIsSpace c <;> cases hU : (c == '_') <;>
      simp [pyIsWordChar, pyIsAlnum, pyIsNumericChar, specKeepsChar,
        hA, hD, hF, hS, hU]
  unfold normalize_text normalize_text_spec_amended
  rw [show (fun c => pyIsWordChar c || pyIsSpace c)
        = (fun c => specKeepsChar c || pyIsNumericChar c || c == '_')
      from funext hch]

/-- Claim C7: `start` always succeeds: it returns the fresh id and the
language's configured greeting verbatim (the `en-US` greeting "How are you?"
when the language is unconfigured), and stores a session with
`question_count = 0`, the greeting as expected phrase, and `used_phrases`
seeded with the normalized greeting. -/
theorem claim_C7 (st : ServiceState) (lang cid : String) :
    (start_conversation st lang cid).2.conversation_id = cid
    ∧ (start_conversation st lang cid).2.ai_message = getGreeting lang
    ∧ lookupConv (start_conversation st lang cid).1 cid
        = some (ConvData.mk lang (getGreeting lang) 0
            [normalize_text (getGreeting lang)])
    ∧ (∀ g, tblGet GREETING_PHRASES lang = some g → getGreeting lang = g)
    ∧ (tblGet GREETING_PHRASES lang = none → getGreeting lang = "How are you?") := by
  refine ⟨rfl, rfl, ?_, ?_, ?_⟩
  · simp [start_conversation, insertConv, lookupConv, tblGet]
  · intro g hg
    simp [getGreeting, hg]
  · intro hg
    simp [getGreeting, hg]
    decide

/-- Witness for C7 at a concrete unconfigured language: starting in "xx"
returns the `en-US` greeting. -/
theorem claim_C7_witness :
    (start_conversation [] "xx" "c").2.ai_message = getGreeting "xx" :=
  (claim_C7 [] "xx" "c").2.1

/-- Claim C8: a reply whose session id is not the current session returns the
"not found" message with `conversation_ended = true` as a normal value (the
embedded function is total, so no exception path exists), leaving the state
unchanged. -/
theorem claim_C8 (st : ServiceState) (cid u lang : String) (q : Bool) (k : Nat)
    (hl : lookupConv st cid = none) :
    reply_to_conversation st cid u lang q k
      = (st, { ai_message := notFoundMessage, conversation_ended := true }) :=
  reply_not_found u lang q k hl

/-- Witness for C8: replying to an empty service state. -/
theorem claim_C8_witness :
    lookupConv ([] : ServiceState) "ghost" = none
    ∧ reply_to_conversation [] "ghost" "hello" "en-US" true 7
        = ([], { ai_message := notFoundMessage, conversation_ended := true }) :=
  ⟨by decide, claim_C8 [] "ghost" "hello" "en-US" true 7 (by decide)⟩

/-- Claim C6: when a correct reply advances (does not end) the session, the
newly issued phrase comes from the chosen pool and — for every outcome of the
random draws — its normalized form is not already in `used_phrases`, provided
the chosen pool still contains an unused phrase. -/
theorem claim_C6 (st : ServiceState) (cid u lang : String) (q : Bool) (k : Nat)
    (cd : ConvData) (hl : lookupConv st cid = some cd)
    (hm : normalize_text u = normalize_text cd.current_phrase)
    (hc : cd.question_count + 1 < MAX_QUESTIONS)
    (hunseen : ∃ p ∈ chosenPool q lang, normalize_text p ∉ cd.asked_questions) :
    (reply_to_conversation st cid u lang q k).2.ai_message ∈ chosenPool q lang
    ∧ normalize_text (reply_to_conversation st cid u lang q k).2.ai_message
        ∉ cd.asked_questions := by
  rw [reply_match_next u lang q k hl hm hc]
  obtain ⟨p, hp, hnp⟩ := hunseen
  have hmem : p ∈ (chosenPool q lang).filter
      fun phrase => !(decide (normalize_text phrase ∈ cd.asked_questions)) :=
    List.mem_filter.mpr ⟨hp, by simpa using hnp⟩
  have hne : ((chosenPool q lang).filter
      fun phrase => !(decide (normalize_text phrase ∈ cd.asked_questions))).isEmpty
        = false := by
    rcases hE : ((chosenPool q lang).filter
      fun phrase => !(decide (normalize_text phrase ∈ cd.asked_questions))) with _ | ⟨a, l⟩
    · rw [hE] at hmem
      cases hmem
    · rfl
  simp only [nextPhrase, availablePhrases, hne, Bool.false_eq_true, if_false]
  have hlen : 0 < ((chosenPool q lang).filter
      fun phrase => !(decide (normalize_text phrase ∈ cd.asked_questions))).length :=
    List.length_pos.mpr (List.ne_nil_of_mem hmem)
  have hidx : k % ((chosenPool q lang).filter
      fun phrase => !(decide (normalize_text phrase ∈ cd.asked_questions))).length
        < ((chosenPool q lang).filter
      fun phrase => !(decide (normalize_text phrase ∈ cd.asked_questions))).length :=
    Nat.mod_lt _ hlen
  rw [List.getD_eq_getElem _ _ hidx]
  constructor
  · exact List.mem_of_mem_filter (List.getElem_mem hidx)
  · have := (List.mem_filter.mp (List.getElem_mem hidx)).2
    simpa using this

/-- Witness for C6: from the post-start `en-US` session, a correct reply with
the question pool chosen and draw 0 issues a phrase from the pool whose
normalized form is unused. -/
theorem claim_C6_witness :
    (lookupConv [("a", ConvData.mk "en-US" "How are you?" 0 ["how are you"])] "a"
        = some (ConvData.mk "en-US" "How are you?" 0 ["how are you"])
    ∧ normalize_text "How are you"
        = normalize_text (ConvData.mk "en-US" "How are you?" 0 ["how are you"]).current_phrase
    ∧ (ConvData.mk "en-US" "How are you?" 0 ["how are you"]).question_count + 1
        < MAX_QUESTIONS
    ∧ ∃ p ∈ chosenPool true "en-US",
        normalize_text p ∉ (ConvData.mk "en-US" "How are you?" 0 ["how are you"]).asked_questions)
    ∧ ((reply_to_conversation
          [("a", ConvData.mk "en-US" "How are you?" 0 ["how are you"])]
          "a" "How are you" "en-US" true 0).2.ai_message ∈ chosenPool true "en-US"
      ∧ normalize_text (reply_to_conversation
          [("a", ConvData.mk "en-US" "How are you?" 0 ["how are you"])]
          "a" "How are you" "en-US" true 0).2.ai_message
        ∉ (ConvData.mk "en-US" "How are you?" 0 ["how are you"]).asked_questions) :=
  ⟨⟨by decide, by decide, by decide,
    ⟨"What do you eat for breakfast?", by decide, by decide⟩⟩,
   claim_C6 _ "a" "How are you" "en-US" true 0
     (ConvData.mk "en-US" "How are you?" 0 ["how are you"]) (by decide) (by decide)
     (by decide) ⟨"What do you eat for breakfast?", by decide, by decide⟩⟩

/-- Claim C10: a reply reports `conversation_ended = true` exactly when,
after the call, no session with the given id exists: true in the
unknown-session and completion cases, false in the mismatch and advance
cases. -/
theorem claim_C10 (st : ServiceState) (cid u lang : String) (q : Bool)
    (k : Nat) (hwf : (st.map Prod.fst).Nodup) :
    (reply_to_conversation st cid u lang q k).2.conversation_ended = true
      ↔ lookupConv (reply_to_conversation st cid u lang q k).1 cid = none := by
  cases hl : lookupConv st cid with
  | none =>
    rw [reply_not_found u lang q k hl]
    simp [hl]
  | some cd =>
    by_cases hm : normalize_text u = normalize_text cd.current_phrase
    · by_cases hc : cd.question_count + 1 ≥ MAX_QUESTIONS
      · rw [reply_match_final u lang q k hl hm hc]
        simp [lookupConv_eraseConv_self hwf]
      · rw [reply_match_next u lang q k hl hm (by omega)]
        simp [lookupConv_insertConv]
    · rw [reply_mismatch u lang q k hl hm]
      simp [hl]

/-- Witness for C10 at a concrete advancing reply: the session survives and
`conversation_ended` is false on both sides of the equivalence. -/
theorem claim_C10_witness :
    ((([("a", ConvData.mk "en-US" "How are you?" 0 ["how are you"])]
        : ServiceState).map Prod.fst).Nodup)
    ∧ ((reply_to_conversation
          [("a", ConvData.mk "en-US" "How are you?" 0 ["how are you"])]
          "a" "How are you" "en-US" true 2).2.conversation_ended = true
        ↔ lookupConv (reply_to_conversation
            [("a", ConvData.mk "en-US" "How are you?" 0 ["how are you"])]
            "a" "How are you" "en-US" true 2).1 "a" = none) :=
  ⟨by decide, claim_C10 _ "a" "How are you" "en-US" true 2 (by decide)⟩

theorem start_state_eq (st : ServiceState) (lang cid : String) :
    (start_conversation st lang cid).1
      = [(cid, ConvData.mk lang (getGreeting lang) 0
          [normalize_text (getGreeting lang)])] := by
  simp [start_conversation, insertConv]

theorem runCorrect_singleton_step (cid : String) (cd : ConvData)
    (p p' : String × Bool × Nat) (ps : List (String × Bool × Nat))
    (hc : cd.question_count + 1 < MAX_QUESTIONS) :
    runCorrect [(cid, cd)] cid (p :: p' :: ps)
      = runCorrect [(cid, advanceData cd p.2.1 p.1 p.2.2)] cid (p' :: ps) := by
  show runCorrect (replyCurrent [(cid, cd)] cid p).1 cid (p' :: ps) = _
  rw [replyCurrent_match_next p (by simp [lookupConv, tblGet]) hc]
  simp [insertConv]

theorem runCorrect_singleton_last (cid : String) (cd : ConvData)
    (p : String × Bool × Nat) (hc : cd.question_count + 1 ≥ MAX_QUESTIONS) :
    runCorrect [(cid, cd)] cid [p]
      = ([], { ai_message := completionMessage, conversation_ended := true }) := by
  show replyCurrent [(cid, cd)] cid p = _
  rw [replyCurrent_match_final p (by simp [lookupConv, tblGet]) hc]
  simp [eraseConv]

theorem question_count_advanceData (cd : ConvData) (q : Bool) (lang : String)
    (k : Nat) :
    (advanceData cd q lang k).question_count = cd.question_count + 1 := rfl

/-- Claim C3: from a fresh session, five correct replies in a row — whatever
the random draws `p1..p5` — end with the completion message and
`conversation_ended = true`, the session is destroyed, and any further reply
with the same id gets the "not found" terminal response. -/
theorem claim_C3 (st0 : ServiceState) (lang cid : String)
    (p1 p2 p3 p4 p5 : String × Bool × Nat) (u lang' : String) (q : Bool)
    (k : Nat) :
    (runCorrect (start_conversation st0 lang cid).1 cid [p1, p2, p3, p4, p5]).2
        = { ai_message := completionMessage, conversation_ended := true }
    ∧ lookupConv
        (runCorrect (start_conversation st0 lang cid).1 cid [p1, p2, p3, p4, p5]).1
        cid = none
    ∧ (reply_to_conversation
        (runCorrect (start_conversation st0 lang cid).1 cid [p1, p2, p3, p4, p5]).1
        cid u lang' q k)
      = ((runCorrect (start_conversation st0 lang cid).1 cid [p1, p2, p3, p4, p5]).1,
         { ai_message := notFoundMessage, conversation_ended := true }) := by
  rw [start_state_eq]
  rw [runCorrect_singleton_step cid _ p1 _ _ (by simp [MAX_QUESTIONS])]
  rw [runCorrect_singleton_step cid _ p2 _ _
    (by simp [MAX_QUESTIONS, question_count_advanceData])]
  rw [runCorrect_singleton_step cid _ p3 _ _
    (by simp [MAX_QUESTIONS, question_count_advanceData])]
  rw [runCorrect_singleton_step cid _ p4 _ _
    (by simp [MAX_QUESTIONS, question_count_advanceData])]
  rw [runCorrect_singleton_last cid _ p5
    (by simp [MAX_QUESTIONS, question_count_advanceData])]
  refine ⟨rfl, rfl, ?_⟩
  exact reply_not_found u lang' q k rfl

theorem runOps_preserves_absent {st : ServiceState} {j : String}
    (ops : List Op) (hops : ∀ op ∈ ops, Op.isReplyOp op = true)
    (h : lookupConv st j = none) : lookupConv (runOps st ops) j = none := by
  induction ops generalizing st with
  | nil => exact h
  | cons op ops ih =>
    have hop := hops op (List.mem_cons_self _ _)
    cases op with
    | startOp l c => simp [Op.isReplyOp] at hop
    | replyOp c u l qq kk =>
      exact ih (fun o ho => hops o (List.mem_cons_of_mem _ ho))
        (reply_preserves_absent c u l qq kk h)

/-- Claim C5: `start` leaves exactly one session; after it, and after any
further sequence of `reply` calls, the service never holds more than one
session, and a reply with the old session id (different from the fresh one)
always gets the "not found" terminal response with the state unchanged. -/
theorem claim_C5 (st : ServiceState) (lang cid oldId u lang' : String)
    (q : Bool) (k : Nat) (ops : List Op) (hne : oldId ≠ cid)
    (hops : ∀ op ∈ ops, Op.isReplyOp op = true) :
    (start_conversation st lang cid).1.length = 1
    ∧ (runOps (start_conversation st lang cid).1 ops).length ≤ 1
    ∧ lookupConv (runOps (start_conversation st lang cid).1 ops) oldId = none
    ∧ reply_to_conversation (runOps (start_conversation st lang cid).1 ops)
        oldId u lang' q k
      = (runOps (start_conversation st lang cid).1 ops,
         { ai_message := notFoundMessage, conversation_ended := true }) := by
  have h1 : (start_conversation st lang cid).1.length = 1 := by
    rw [start_state_eq]
    rfl
  have habs : lookupConv (start_conversation st lang cid).1 oldId = none := by
    rw [start_state_eq]
    simp only [lookupConv, tblGet]
    rw [if_neg (fun h => hne h.symm)]
  have habs' := runOps_preserves_absent ops hops habs
  exact ⟨h1, length_runOps_le_one (le_of_eq h1) ops, habs',
    reply_not_found u lang' q k habs'⟩

/-- Witness for C5: starting over an old session and replaying one reply
against the stale id. -/
theorem claim_C5_witness :
    ("old" ≠ "new"
    ∧ ∀ op ∈ [Op.replyOp "new" "How are you" "en-US" true 0],
        Op.isReplyOp op = true)
    ∧ ((start_conversation [("old", ConvData.mk "en-US" "How are you?" 2 ["how are you"])]
          "en-US" "new").1.length = 1
      ∧ (runOps (start_conversation
            [("old", ConvData.mk "en-US" "How are you?" 2 ["how are you"])]
            "en-US" "new").1
          [Op.replyOp "new" "How are you" "en-US" true 0]).length ≤ 1
      ∧ lookupConv (runOps (start_conversation
            [("old", ConvData.mk "en-US" "How are you?" 2 ["how are you"])]
            "en-US" "new").1
          [Op.replyOp "new" "How are you" "en-US" true 0]) "old" = none
      ∧ reply_to_conversation (runOps (start_conversation
            [("old", ConvData.mk "en-US" "How are you?" 2 ["how are you"])]
            "en-US" "new").1
          [Op.replyOp "new" "How are you" "en-US" true 0]) "old" "hello" "en-US"
          false 4
        = (runOps (start_conversation
              [("old", ConvData.mk "en-US" "How are you?" 2 ["how are you"])]
              "en-US" "new").1
            [Op.replyOp "new" "How are you" "en-US" true 0],
           { ai_message := notFoundMessage, conversation_ended := true })) :=
  ⟨⟨by decide, by decide⟩,
   claim_C5 _ "en-US" "new" "old" "hello" "en-US" false 4
     [Op.replyOp "new" "How are you" "en-US" true 0] (by decide) (by decide)⟩

theorem runOps_counts_le {st : ServiceState}
    (hst : ∀ p ∈ st, (Prod.snd p).question_count ≤ MAX_QUESTIONS)
    (ops : List Op) :
    ∀ p ∈ runOps st ops, (Prod.snd p).question_count ≤ MAX_QUESTIONS := by
  induction ops generalizing st with
  | nil => exact hst
  | cons op ops ih => exact ih (counts_le_stepOp hst op)

/-- Claim C9: over every operation sequence from the empty initial state,
every stored session count lies in `[0, MAX_QUESTIONS]` (it is a `Nat`, so
nonnegative), and one further `reply` call never decreases the count of any
session that survives it. -/
theorem claim_C9 (ops : List Op) (cid u lang : String) (q : Bool) (k : Nat) :
    (∀ p ∈ runOps [] ops, (Prod.snd p).question_count ≤ MAX_QUESTIONS)
    ∧ ∀ j cd cd', lookupConv (runOps [] ops) j = some cd
        → lookupConv (reply_to_conversation (runOps [] ops) cid u lang q k).1 j
            = some cd'
        → cd.question_count ≤ cd'.question_count := by
  constructor
  · exact runOps_counts_le (by simp) ops
  · intro j cd cd' h1 h2
    exact reply_count_mono
      (nodup_keys_of_length_le_one (length_runOps_le_one (by simp) ops))
      cid u lang q k h1 h2

/-- Witness for C9: one start from the empty state, then one correct reply;
the surviving session's count goes from 0 to 1, which is non-decreasing. -/
theorem claim_C9_witness :
    lookupConv (runOps [] [Op.startOp "en-US" "a"]) "a"
        = some (ConvData.mk "en-US" "How are you?" 0 ["how are you"])
    ∧ lookupConv (reply_to_conversation (runOps [] [Op.startOp "en-US" "a"])
          "a" "how are you" "en-US" true 0).1 "a"
        = some (ConvData.mk "en-US" "What do you eat for breakfast?" 1
            ["how are you", "what do you eat for breakfast"])
    ∧ (ConvData.mk "en-US" "How are you?" 0 ["how are you"]).question_count
        ≤ (ConvData.mk "en-US" "What do you eat for breakfast?" 1
            ["how are you", "what do you eat for breakfast"]).question_count :=
  ⟨by decide, by decide,
   (claim_C9 [Op.startOp "en-US" "a"] "a" "how are you" "en-US" true 0).2
     "a" _ _ (by decide) (by decide)⟩

end ConversationTracker
